import Mathlib

/-
Verification of the Easier68k CMP / CMPI instruction variants.

The two instruction files (easier68k/core/opcodes/cmp.py and cmpi.py) are
embedded directly.  The shared engine they call into (MemoryValue,
AssemblyParameter resolution, the M68K machine state, split_bits and the
effective-address binary helpers) is not part of the provided sources, so
those pieces are modelled from the design document, faithful to its words
and to the observable behaviour pinned down by the provided test files.
-/

namespace Easier68k

/-- Operation width tag.  Source: OpSize enum (BYTE = 1, WORD = 2,
LONG = 4 bytes); the numeric value of each member is its byte count. -/
inductive OpSize
| BYTE
| WORD
| LONG
deriving DecidableEq

/-- Number of bytes of an OpSize, the Python member value and also
get_number_of_bytes. -/
def OpSize.bytes : OpSize → Nat
| OpSize.BYTE => 1
| OpSize.WORD => 2
| OpSize.LONG => 4

/-- Number of bits of an OpSize. -/
def OpSize.bits (s : OpSize) : Nat := 8 * s.bytes

/-- Effective-address mode tag.  Modelled from the spec: the AddressingMode
tag set used by the two instructions (register direct, register indirect
with optional post-increment or pre-decrement, absolute short and long,
immediate).  DRD = DataRegisterDirect, ARD = AddressRegisterDirect,
ARI = AddressRegisterIndirect, ARIPI / ARIPD = post-increment /
pre-decrement, AWA = AbsoluteWordAddress, ALA = AbsoluteLongAddress,
IMM = Immediate. -/
inductive EAMode
| DRD
| ARD
| ARI
| ARIPI
| ARIPD
| AWA
| ALA
| IMM
deriving DecidableEq

/-- Operand: an addressing-mode tag plus its payload (register index,
address, or immediate literal; the literal may be negative).  Source:
AssemblyParameter, a plain (mode, data) pair. -/
structure AssemblyParameter where
  mode : EAMode
  data : Int
deriving DecidableEq

/-- Fixed-width integer value.  Modelled from the spec: a SizedValue
stores raw bits at a declared width; every read accessor masks to the
width before interpreting sign. -/
structure MemoryValue where
  size : OpSize
  raw : Nat
deriving DecidableEq

/-- Unsigned view: the raw bits masked to the declared width. -/
def MemoryValue.unsignedVal (mv : MemoryValue) : Nat :=
  mv.raw % 2 ^ mv.size.bits

/-- Sign-bit query (get_negative): the top bit of the masked value. -/
def MemoryValue.negative (mv : MemoryValue) : Bool :=
  decide (2 ^ (mv.size.bits - 1) ≤ mv.unsignedVal)

/-- Signed view (get_value_signed): two complement interpretation of the
masked bits. -/
def MemoryValue.signedVal (mv : MemoryValue) : Int :=
  if 2 ^ (mv.size.bits - 1) ≤ mv.unsignedVal then
    (mv.unsignedVal : Int) - 2 ^ mv.size.bits
  else
    (mv.unsignedVal : Int)

/-- Construction from a signed magnitude: the two complement bits of the
integer at the declared width. -/
def MemoryValue.ofSigned (s : OpSize) (i : Int) : MemoryValue :=
  ⟨s, (i % (2 ^ s.bits : Int)).toNat⟩

/-- Width-correct subtraction producing a new value masked to the width of
the left operand.  Modelled from the spec: results are masked to the
originating width. -/
def MemoryValue.sub (x y : MemoryValue) : MemoryValue :=
  ⟨x.size, (((x.unsignedVal : Int) - (y.unsignedVal : Int)) % (2 ^ x.size.bits : Int)).toNat⟩

/-- Ordering comparison used by the compare instruction.  Modelled from the
spec: the carry test compares the unsigned interpretations. -/
def MemoryValue.gtUnsigned (x y : MemoryValue) : Bool :=
  decide (y.unsignedVal < x.unsignedVal)

/-- Machine state: 8 data registers, 8 address registers (indexed by
register number, each holding 32 raw bits), a flat byte memory, the
program counter and the five condition flags.  Source: the M68K simulator
object, modelled from the spec data model. -/
structure M68K where
  d : Nat → Nat
  a : Nat → Nat
  mem : Nat → Nat
  pc : Nat
  flagN : Bool
  flagZ : Bool
  flagV : Bool
  flagC : Bool
  flagX : Bool

/-- Big-endian read of size.bytes bytes of memory starting at addr. -/
def readMemValue (s : M68K) (addr : Nat) (size : OpSize) : Nat :=
  match size with
  | OpSize.BYTE => s.mem addr % 256
  | OpSize.WORD => (s.mem addr % 256) * 256 + s.mem (addr + 1) % 256
  | OpSize.LONG =>
      ((s.mem addr % 256) * 256 + s.mem (addr + 1) % 256) * 65536 +
      (s.mem (addr + 2) % 256) * 256 + s.mem (addr + 3) % 256

/-- Step taken by a post-increment or pre-decrement resolution: the operand
width, except that the stack pointer (register 7) moves by 2 even for a
1-byte access.  Modelled from the spec stack-alignment rule. -/
def incDecStep (reg : Nat) (size : OpSize) : Nat :=
  if reg = 7 ∧ size = OpSize.BYTE then 2 else size.bytes

/-- Operand resolution (AssemblyParameter.get_value).  Modelled from the
spec: direct register modes read the named register (the full 32-bit
register is returned, as the overflow-boundary property row of the design
document and the provided cmpi tests require); indirect modes read memory
at the address register; post-increment / pre-decrement additionally move
the address register at resolution time; absolute modes read memory at the
payload address; immediate returns the payload at the requested width.
Returns the value together with the possibly-updated state. -/
def getValue (p : AssemblyParameter) (size : OpSize) (s : M68K) :
    MemoryValue × M68K :=
  match p.mode with
  | EAMode.DRD => (⟨OpSize.LONG, s.d p.data.toNat⟩, s)
  | EAMode.ARD => (⟨OpSize.LONG, s.a p.data.toNat⟩, s)
  | EAMode.IMM => (MemoryValue.ofSigned size p.data, s)
  | EAMode.ARI => (⟨size, readMemValue s (s.a p.data.toNat) size⟩, s)
  | EAMode.ARIPI =>
      let r := p.data.toNat
      let addr := s.a r
      (⟨size, readMemValue s addr size⟩,
       { s with a := fun i => if i = r then (addr + incDecStep r size) % 2 ^ 32 else s.a i })
  | EAMode.ARIPD =>
      let r := p.data.toNat
      let addr := (((s.a r : Int) - (incDecStep r size : Int)) % (2 ^ 32 : Int)).toNat
      (⟨size, readMemValue s addr size⟩,
       { s with a := fun i => if i = r then addr else s.a i })
  | EAMode.AWA => (⟨size, readMemValue s ((p.data % (2 ^ 16 : Int)).toNat) size⟩, s)
  | EAMode.ALA => (⟨size, readMemValue s ((p.data % (2 ^ 32 : Int)).toNat) size⟩, s)

/-- CMP instruction object: source operand (any mode), destination operand
(data-register-direct) and the operation size.  Source: class Cmp. -/
structure Cmp where
  src : AssemblyParameter
  dest : AssemblyParameter
  size : OpSize
deriving DecidableEq

/-- CMPI instruction object: immediate source, destination operand
(anything but ARD and IMM) and the operation size.  Source: class Cmpi. -/
structure Cmpi where
  src : AssemblyParameter
  dest : AssemblyParameter
  size : OpSize
deriving DecidableEq

/-- Allowed sizes for CMP (Cmp.valid_sizes). -/
def cmpValidSizes : List OpSize := [OpSize.BYTE, OpSize.WORD, OpSize.LONG]

/-- Allowed sizes for CMPI (Cmpi.valid_sizes). -/
def cmpiValidSizes : List OpSize := [OpSize.BYTE, OpSize.WORD, OpSize.LONG]

/-- Construction of a CMP object.  Source: Cmp.__init__, whose asserts
require exactly two operands, a data-register-direct destination and a size
in valid_sizes; a failed assert is modelled as none. -/
def cmpConstruct (params : List AssemblyParameter) (size : OpSize) : Option Cmp :=
  match params with
  | [p0, p1] =>
      if p1.mode = EAMode.DRD ∧ size ∈ cmpValidSizes then
        some ⟨p0, p1, size⟩
      else
        none
  | _ => none

/-- Construction of a CMPI object.  Source: Cmpi.__init__, whose asserts
require exactly two operands, an immediate source, a destination that is
neither address-register-direct nor immediate, and a size in valid_sizes;
a failed assert is modelled as none. -/
def cmpiConstruct (params : List AssemblyParameter) (size : OpSize) : Option Cmpi :=
  match params with
  | [p0, p1] =>
      if p0.mode = EAMode.IMM ∧ p1.mode ≠ EAMode.ARD ∧ p1.mode ≠ EAMode.IMM ∧
          size ∈ cmpiValidSizes then
        some ⟨p0, p1, size⟩
      else
        none
  | _ => none

/-- Effective-address field of the opcode word, mode bits before register
bits.  Modelled from the spec: a 3-bit mode tag followed by a 3-bit
register field; absolute short, absolute long and immediate use mode 7
with fixed register codes 0, 1 and 4 (the layout pinned down by the
binary-format section and the cmpi doctest bytes). -/
def eaModeFirstBits (p : AssemblyParameter) : Nat :=
  match p.mode with
  | EAMode.DRD => 0 * 8 + p.data.toNat % 8
  | EAMode.ARD => 1 * 8 + p.data.toNat % 8
  | EAMode.ARI => 2 * 8 + p.data.toNat % 8
  | EAMode.ARIPI => 3 * 8 + p.data.toNat % 8
  | EAMode.ARIPD => 4 * 8 + p.data.toNat % 8
  | EAMode.AWA => 7 * 8 + 0
  | EAMode.ALA => 7 * 8 + 1
  | EAMode.IMM => 7 * 8 + 4

/-- Big-endian bytes of a 16-bit word (int.to_bytes(2, big)). -/
def word16ToBytes (w : Nat) : List Nat := [w / 256 % 256, w % 256]

/-- Big-endian bytes of a 32-bit value. -/
def long32ToBytes (v : Nat) : List Nat :=
  [v / 16777216 % 256, v / 65536 % 256, v / 256 % 256, v % 256]

/-- Extension words emitted after the opcode word for one operand.
Modelled from the spec: a word or byte immediate occupies one extension
word, a long immediate two; an absolute short address one word, an
absolute long address two; other modes add nothing
(opcode_util.ea_to_binary_post_op). -/
def eaToBinaryPostOp (p : AssemblyParameter) (size : OpSize) : List Nat :=
  match p.mode with
  | EAMode.IMM =>
      match size with
      | OpSize.LONG => long32ToBytes (p.data % (2 ^ 32 : Int)).toNat
      | OpSize.WORD => word16ToBytes (p.data % (2 ^ 16 : Int)).toNat
      | OpSize.BYTE => word16ToBytes (p.data % (2 ^ 8 : Int)).toNat
  | EAMode.AWA => word16ToBytes (p.data % (2 ^ 16 : Int)).toNat
  | EAMode.ALA => long32ToBytes (p.data % (2 ^ 32 : Int)).toNat
  | _ => []

/-- Opmode field of the CMP opcode word (000 byte, 001 word, 010 long). -/
def cmpOpmodeBits : OpSize → Nat
| OpSize.BYTE => 0b000
| OpSize.WORD => 0b001
| OpSize.LONG => 0b010

/-- Assembly of CMP (Cmp.assemble): the single opcode word
1011 / dest register / opmode / source ea field, as two big-endian bytes.
The source emits no extension words in this function. -/
def cmpAssemble (c : Cmp) : List Nat :=
  word16ToBytes
    (0b1011 <<< 12 |||
     (c.dest.data.toNat % 8) <<< 9 |||
     cmpOpmodeBits c.size <<< 6 |||
     eaModeFirstBits c.src)

/-- Size field of the CMPI opcode word (00 byte, 01 word, 10 long). -/
def cmpiSizeBits : OpSize → Nat
| OpSize.BYTE => 0b00
| OpSize.WORD => 0b01
| OpSize.LONG => 0b10

/-- Assembly of CMPI (Cmpi.assemble): opcode word 00001100 / size /
destination ea field, then the immediate source extension words, then the
destination extension words when the destination is IMM, AWA or ALA. -/
def cmpiAssemble (c : Cmpi) : List Nat :=
  word16ToBytes
    (0b00001100 <<< 8 ||| cmpiSizeBits c.size <<< 6 ||| eaModeFirstBits c.dest) ++
  eaToBinaryPostOp c.src c.size ++
  (if c.dest.mode = EAMode.IMM ∨ c.dest.mode = EAMode.AWA ∨ c.dest.mode = EAMode.ALA then
    eaToBinaryPostOp c.dest c.size
  else
    [])

/-- Test of one bit of a Python integer: x & 2^k > 0 in two-complement
arithmetic, rendered through the nonnegative remainder. -/
def intBitSet (x : Int) (k : Nat) : Bool :=
  decide ((2 ^ k : Int) ≤ x % (2 ^ (k + 1) : Int))

/-- Execution of CMP (Cmp.execute), line for line: fetch the source then
the destination value at the operation width, form
comparision = src_signed - dest_signed and the masked MemoryValue
difference src - dest, set Negative to comparision < 0, Zero to
comparision == 0, Overflow to the equal-sign / changed-sign test on the
masked difference, Carry to the unsigned src > dest test, and advance the
program counter by one word plus a long for an absolute-long source and a
word for an absolute-word source. -/
def cmpExecute (c : Cmp) (s : M68K) : M68K :=
  let r1 := getValue c.src c.size s
  let srcVal := r1.1
  let r2 := getValue c.dest c.size r1.2
  let destVal := r2.1
  let s2 := r2.2
  let comparision : Int := srcVal.signedVal - destVal.signedVal
  let compMv := MemoryValue.sub srcVal destVal
  let overflow : Bool :=
    decide (srcVal.negative = destVal.negative ∧ srcVal.negative ≠ compMv.negative)
  let s3 := { s2 with
    flagN := decide (comparision < 0)
    flagZ := decide (comparision = 0)
    flagV := overflow
    flagC := srcVal.gtUnsigned destVal }
  let toIncrement :=
    OpSize.WORD.bytes +
    (if c.src.mode = EAMode.ALA then OpSize.LONG.bytes else 0) +
    (if c.src.mode = EAMode.AWA then OpSize.WORD.bytes else 0)
  { s3 with pc := s3.pc + toIncrement }

/-- Execution of CMPI (Cmpi.execute), line for line: fetch the immediate
source then the destination value at the operation width, form
comparison = dest_signed - src_signed and
raw_total = dest_unsigned - src_unsigned as plain integers, set Negative
from the width bit of comparison, Zero from comparison == 0, Overflow from
the nonnegative-source / negative-destination / bit-31-of-raw_total chain,
Carry from raw_total < 0, and advance the program counter by one word,
plus a long for long size and a word otherwise, plus the destination
absolute-address extension words. -/
def cmpiExecute (c : Cmpi) (s : M68K) : M68K :=
  let r1 := getValue c.src c.size s
  let srcVal := r1.1
  let r2 := getValue c.dest c.size r1.2
  let destVal := r2.1
  let s2 := r2.2
  let comparison : Int := destVal.signedVal - srcVal.signedVal
  let rawTotal : Int := (destVal.unsignedVal : Int) - (srcVal.unsignedVal : Int)
  let negative : Bool :=
    match c.size with
    | OpSize.BYTE => intBitSet comparison 7
    | OpSize.WORD => intBitSet comparison 15
    | OpSize.LONG => intBitSet comparison 31
  let overflow : Bool :=
    decide (srcVal.negative = false ∧ destVal.negative = true ∧
      0 < rawTotal ∧ intBitSet rawTotal 31 = true)
  let s3 := { s2 with
    flagN := negative
    flagZ := decide (comparison = 0)
    flagV := overflow
    flagC := decide (rawTotal < 0) }
  let toIncrement :=
    OpSize.WORD.bytes +
    (if c.size = OpSize.LONG then OpSize.LONG.bytes else OpSize.WORD.bytes) +
    (if c.dest.mode = EAMode.ALA then OpSize.LONG.bytes else 0) +
    (if c.dest.mode = EAMode.AWA then OpSize.WORD.bytes else 0)
  { s3 with pc := s3.pc + toIncrement }

/-- Static word length of CMP (Cmp.get_word_length), on the operands as
already parsed (the text-to-operand parser is external to the core): one
word, plus for an immediate source two words at long size and one word
otherwise, plus one word for an absolute-word source and two for an
absolute-long source.  The destination is parsed but never consulted. -/
def cmpGetWordLength (size : OpSize) (src _dest : AssemblyParameter) : Nat :=
  1 +
  (if src.mode = EAMode.IMM then (if size = OpSize.LONG then 2 else 1) else 0) +
  (if src.mode = EAMode.AWA then 1 else 0) +
  (if src.mode = EAMode.ALA then 2 else 0)

/-- Static word length of CMPI (Cmpi.get_word_length), on the operands as
already parsed: three words at long size, two otherwise, plus one word for
an absolute-word destination and two for an absolute-long destination. -/
def cmpiGetWordLength (size : OpSize) (_src dest : AssemblyParameter) : Nat :=
  (if size = OpSize.LONG then 3 else 2) +
  (if dest.mode = EAMode.AWA then 1 else 0) +
  (if dest.mode = EAMode.ALA then 2 else 0)

/-- Big-endian integer value of a byte list (int.from_bytes(data, big)). -/
def bytesToNat (l : List Nat) : Nat :=
  l.foldl (fun acc b => acc * 256 + b % 256) 0

/-- Reconstruction of an operand from the 3-bit mode and register fields
plus the trailing bytes (ea_mode_bin.parse_ea_from_binary).  Modelled from
the spec: register modes carry the register index; mode 7 selects absolute
word (register code 0, one extension word), absolute long (code 1, two
extension words) or immediate (code 4, one extension word, two at long
size).  Returns the operand and the number of extension words consumed;
an unsupported field combination gives none. -/
def parseEAFromBinary (mode reg : Nat) (size : OpSize) (rest : List Nat) :
    Option (AssemblyParameter × Nat) :=
  match mode with
  | 0 => some (⟨EAMode.DRD, (reg : Int)⟩, 0)
  | 1 => some (⟨EAMode.ARD, (reg : Int)⟩, 0)
  | 2 => some (⟨EAMode.ARI, (reg : Int)⟩, 0)
  | 3 => some (⟨EAMode.ARIPI, (reg : Int)⟩, 0)
  | 4 => some (⟨EAMode.ARIPD, (reg : Int)⟩, 0)
  | 7 =>
      if reg = 0 then
        if 2 ≤ rest.length then
          some (⟨EAMode.AWA, (bytesToNat (rest.take 2) : Int)⟩, 1)
        else none
      else if reg = 1 then
        if 4 ≤ rest.length then
          some (⟨EAMode.ALA, (bytesToNat (rest.take 4) : Int)⟩, 2)
        else none
      else if reg = 4 then
        match size with
        | OpSize.LONG =>
            if 4 ≤ rest.length then
              some (⟨EAMode.IMM, (bytesToNat (rest.take 4) : Int)⟩, 2)
            else none
        | _ =>
            if 2 ≤ rest.length then
              some (⟨EAMode.IMM, (bytesToNat (rest.take 2) : Int)⟩, 1)
            else none
      else none
  | _ => none

/-- Disassembly of CMP (Cmp.disassemble_instruction): split the first word
into the 4-bit opcode, 3-bit register, 3-bit opmode and 3+3-bit ea fields;
return none unless the opcode field is 1011; select the size — source
slip preserved: after the byte case the code tests opcode_bin, not
opmode_bin, against 001 and 010, so the word and long cases are
unreachable — then rebuild the source operand from the ea fields and the
trailing bytes and construct the instruction.  The length assert of the
source (at least 2 bytes) is modelled as none. -/
def cmpDisassemble (data : List Nat) : Option Cmp :=
  match data with
  | b0 :: b1 :: rest =>
      let w := (b0 % 256) * 256 + b1 % 256
      let opcodeBin := w >>> 12
      let registerBin := w >>> 9 % 8
      let opmodeBin := w >>> 6 % 8
      let eaModeBin := w >>> 3 % 8
      let eaRegBin := w % 8
      if opcodeBin ≠ 0b1011 then none
      else
        let sizeOpt : Option OpSize :=
          if opmodeBin = 0b000 then some OpSize.BYTE
          else if opcodeBin = 0b001 then some OpSize.WORD
          else if opcodeBin = 0b010 then some OpSize.LONG
          else none
        match sizeOpt with
        | none => none
        | some size =>
            match parseEAFromBinary eaModeBin eaRegBin size rest with
            | none => none
            | some (src, _) =>
                cmpConstruct [src, ⟨EAMode.DRD, (registerBin : Int)⟩] size
  | _ => none

/-- Disassembly of CMPI (Cmpi.disassemble_instruction): split the first
word into the 8-bit opcode, 2-bit size and 3+3-bit ea fields; return none
unless the opcode field is 00001100; select the size from the size field;
read the immediate from the bytes right after the opcode word (two bytes,
four at long size); rebuild the destination operand — source slip
preserved: the destination extension is parsed from the bytes right after
the opcode word as well, not after the immediate — and construct the
instruction.  The length assert of the source is modelled as none. -/
def cmpiDisassemble (data : List Nat) : Option Cmpi :=
  match data with
  | b0 :: b1 :: rest =>
      let w := (b0 % 256) * 256 + b1 % 256
      let opcodeBin := w >>> 8
      let sizeBin := w >>> 6 % 4
      let eaModeBin := w >>> 3 % 8
      let eaRegBin := w % 8
      if opcodeBin ≠ 0b00001100 then none
      else
        let sizeOpt : Option OpSize :=
          if sizeBin = 0b00 then some OpSize.BYTE
          else if sizeBin = 0b01 then some OpSize.WORD
          else if sizeBin = 0b10 then some OpSize.LONG
          else none
        match sizeOpt with
        | none => none
        | some size =>
            let srcSize := if size = OpSize.LONG then 4 else 2
            let srcValue := bytesToNat (rest.take srcSize)
            match parseEAFromBinary eaModeBin eaRegBin size rest with
            | none => none
            | some (dest, _) =>
                cmpiConstruct [⟨EAMode.IMM, (srcValue : Int)⟩, dest] size
  | _ => none

/-- Legality of a CMP object, the constructor invariant: destination is
data-register-direct and the size is a member of valid_sizes. -/
def cmpLegal (c : Cmp) : Prop :=
  c.dest.mode = EAMode.DRD ∧ c.size ∈ cmpValidSizes

/-- Legality of a CMPI object, the constructor invariant: immediate
source, destination neither address-register-direct nor immediate, size a
member of valid_sizes. -/
def cmpiLegal (c : Cmpi) : Prop :=
  c.src.mode = EAMode.IMM ∧ c.dest.mode ≠ EAMode.ARD ∧
    c.dest.mode ≠ EAMode.IMM ∧ c.size ∈ cmpiValidSizes

instance (c : Cmp) : Decidable (cmpLegal c) := by
  unfold cmpLegal; infer_instance

instance (c : Cmpi) : Decidable (cmpiLegal c) := by
  unfold cmpiLegal; infer_instance

/-- Operand resolution never touches the memory array. -/
theorem getValue_mem_eq (p : AssemblyParameter) (size : OpSize) (s : M68K) :
    ((getValue p size s).2).mem = s.mem := by
  obtain ⟨m, dta⟩ := p
  cases m <;> rfl

/-- Operand resolution never touches the data registers. -/
theorem getValue_d_eq (p : AssemblyParameter) (size : OpSize) (s : M68K) :
    ((getValue p size s).2).d = s.d := by
  obtain ⟨m, dta⟩ := p
  cases m <;> rfl

/-- Operand resolution never touches the extend flag. -/
theorem getValue_x_eq (p : AssemblyParameter) (size : OpSize) (s : M68K) :
    ((getValue p size s).2).flagX = s.flagX := by
  obtain ⟨m, dta⟩ := p
  cases m <;> rfl

/-- State after CMP execution, projected to memory. -/
theorem cmpExecute_mem (c : Cmp) (s : M68K) : (cmpExecute c s).mem = s.mem := by
  calc (cmpExecute c s).mem
      = ((getValue c.dest c.size ((getValue c.src c.size s).2)).2).mem := rfl
    _ = ((getValue c.src c.size s).2).mem := getValue_mem_eq ..
    _ = s.mem := getValue_mem_eq ..

/-- State after CMP execution, projected to the data registers. -/
theorem cmpExecute_d (c : Cmp) (s : M68K) : (cmpExecute c s).d = s.d := by
  calc (cmpExecute c s).d
      = ((getValue c.dest c.size ((getValue c.src c.size s).2)).2).d := rfl
    _ = ((getValue c.src c.size s).2).d := getValue_d_eq ..
    _ = s.d := getValue_d_eq ..

/-- State after CMP execution, projected to the extend flag. -/
theorem cmpExecute_x (c : Cmp) (s : M68K) : (cmpExecute c s).flagX = s.flagX := by
  calc (cmpExecute c s).flagX
      = ((getValue c.dest c.size ((getValue c.src c.size s).2)).2).flagX := rfl
    _ = ((getValue c.src c.size s).2).flagX := getValue_x_eq ..
    _ = s.flagX := getValue_x_eq ..

/-- State after CMPI execution, projected to memory. -/
theorem cmpiExecute_mem (c : Cmpi) (s : M68K) : (cmpiExecute c s).mem = s.mem := by
  calc (cmpiExecute c s).mem
      = ((getValue c.dest c.size ((getValue c.src c.size s).2)).2).mem := rfl
    _ = ((getValue c.src c.size s).2).mem := getValue_mem_eq ..
    _ = s.mem := getValue_mem_eq ..

/-- State after CMPI execution, projected to the data registers. -/
theorem cmpiExecute_d (c : Cmpi) (s : M68K) : (cmpiExecute c s).d = s.d := by
  calc (cmpiExecute c s).d
      = ((getValue c.dest c.size ((getValue c.src c.size s).2)).2).d := rfl
    _ = ((getValue c.src c.size s).2).d := getValue_d_eq ..
    _ = s.d := getValue_d_eq ..

/-- State after CMPI execution, projected to the extend flag. -/
theorem cmpiExecute_x (c : Cmpi) (s : M68K) : (cmpiExecute c s).flagX = s.flagX := by
  calc (cmpiExecute c s).flagX
      = ((getValue c.dest c.size ((getValue c.src c.size s).2)).2).flagX := rfl
    _ = ((getValue c.src c.size s).2).flagX := getValue_x_eq ..
    _ = s.flagX := getValue_x_eq ..

/-- Claim C1: decode after encode returns the original instruction for
every legal CMP and CMPI instruction.  This fails on the code: for the
legal instruction CMP.W D0,D1 the assembled bytes disassemble to none
(the size selection of Cmp.disassemble_instruction tests opcode_bin, which
already equals 1011, instead of opmode_bin, so word and long sizes are
never recognised); and for the legal instruction CMPI.W #123,($BEEF).L the
assembled bytes disassemble to a different instruction (the destination
extension is parsed from the bytes directly after the opcode word, where
the immediate sits, instead of after the immediate). -/
theorem C1_roundtrip_decode_encode_fails :
    cmpDisassemble
      (cmpAssemble ⟨⟨EAMode.DRD, 0⟩, ⟨EAMode.DRD, 1⟩, OpSize.WORD⟩) = none ∧
    cmpiDisassemble
      (cmpiAssemble ⟨⟨EAMode.IMM, 123⟩, ⟨EAMode.ALA, 0xBEEF⟩, OpSize.WORD⟩) ≠
      some ⟨⟨EAMode.IMM, 123⟩, ⟨EAMode.ALA, 0xBEEF⟩, OpSize.WORD⟩ := by
  decide

/-- Claim C2: after CMP executes, Negative equals
(destination signed minus source signed, at the declared width) < 0.
This fails on the code: Cmp.execute computes
comparision = src_signed - dest_signed, the reverse of its own comment.
At the legal instruction CMP.B D0,D1 with D0 (source) = 0 and
D1 (destination) = 1 the code sets Negative, although the destination
minus the source is 1, which is not negative. -/
theorem C2_cmp_negative_flag_reversed :
    (cmpExecute ⟨⟨EAMode.DRD, 0⟩, ⟨EAMode.DRD, 1⟩, OpSize.BYTE⟩
      ⟨fun i => if i = 1 then 1 else 0, fun _ => 0, fun _ => 0, 0x1000,
        false, false, false, false, false⟩).flagN = true ∧
    (getValue ⟨EAMode.DRD, 1⟩ OpSize.BYTE
      ⟨fun i => if i = 1 then 1 else 0, fun _ => 0, fun _ => 0, 0x1000,
        false, false, false, false, false⟩).1.signedVal -
    (getValue ⟨EAMode.DRD, 0⟩ OpSize.BYTE
      ⟨fun i => if i = 1 then 1 else 0, fun _ => 0, fun _ => 0, 0x1000,
        false, false, false, false, false⟩).1.signedVal = 1 := by
  decide

/-- Claim C3: the static word length times 2 equals the assembled byte
count for every constructible CMP and CMPI instruction.  This fails on the
code for CMP with an extension-word source: Cmp.assemble emits only the
opcode word, never the extension words that Cmp.get_word_length counts.
At CMP.W ($AAAA).W,D1 the static length is 2 words (4 bytes) while
assemble returns 2 bytes. -/
theorem C3_cmp_length_agreement_fails :
    cmpGetWordLength OpSize.WORD ⟨EAMode.AWA, 0xAAAA⟩ ⟨EAMode.DRD, 1⟩ * 2 = 4 ∧
    (cmpAssemble ⟨⟨EAMode.AWA, 0xAAAA⟩, ⟨EAMode.DRD, 1⟩, OpSize.WORD⟩).length = 2 := by
  decide

/-- Claim C4: after execute the program counter has advanced by the byte
length of the assembled encoding.  This fails on the code for CMP with an
extension-word source, because Cmp.assemble omits the extension words that
Cmp.execute (correctly, per the design document) accounts for: at
CMP.W ($AAAA).W,D1 execute advances the program counter by 4 bytes while
the assembled encoding is 2 bytes long. -/
theorem C4_cmp_pc_advance_mismatch :
    (cmpExecute ⟨⟨EAMode.AWA, 0xAAAA⟩, ⟨EAMode.DRD, 1⟩, OpSize.WORD⟩
      ⟨fun _ => 0, fun _ => 0, fun _ => 0, 0x1000,
        false, false, false, false, false⟩).pc = 0x1000 + 4 ∧
    (cmpAssemble ⟨⟨EAMode.AWA, 0xAAAA⟩, ⟨EAMode.DRD, 1⟩, OpSize.WORD⟩).length = 2 := by
  decide

/-- Claim C5: CMPI at byte width with a long destination holding -4
(raw bits FFFFFFFC in data register 1) and immediate source 125 sets
exactly Overflow, leaving Carry, Negative and Zero clear. -/
theorem C5_cmpi_overflow_boundary :
    ((cmpiExecute ⟨⟨EAMode.IMM, 125⟩, ⟨EAMode.DRD, 1⟩, OpSize.BYTE⟩
      ⟨fun i => if i = 1 then 0xFFFFFFFC else 0, fun _ => 0, fun _ => 0, 0x1000,
        false, false, false, false, false⟩).flagV = true) ∧
    ((cmpiExecute ⟨⟨EAMode.IMM, 125⟩, ⟨EAMode.DRD, 1⟩, OpSize.BYTE⟩
      ⟨fun i => if i = 1 then 0xFFFFFFFC else 0, fun _ => 0, fun _ => 0, 0x1000,
        false, false, false, false, false⟩).flagC = false) ∧
    ((cmpiExecute ⟨⟨EAMode.IMM, 125⟩, ⟨EAMode.DRD, 1⟩, OpSize.BYTE⟩
      ⟨fun i => if i = 1 then 0xFFFFFFFC else 0, fun _ => 0, fun _ => 0, 0x1000,
        false, false, false, false, false⟩).flagN = false) ∧
    ((cmpiExecute ⟨⟨EAMode.IMM, 125⟩, ⟨EAMode.DRD, 1⟩, OpSize.BYTE⟩
      ⟨fun i => if i = 1 then 0xFFFFFFFC else 0, fun _ => 0, fun _ => 0, 0x1000,
        false, false, false, false, false⟩).flagZ = false) := by
  decide

/-- Claim C6: CMPI at word width with destination value 123 (data register
0) and immediate source 52 clears Zero, Carry, Overflow and Negative and
advances the program counter by exactly 4 bytes. -/
theorem C6_cmpi_word_flags_and_pc :
    ((cmpiExecute ⟨⟨EAMode.IMM, 52⟩, ⟨EAMode.DRD, 0⟩, OpSize.WORD⟩
      ⟨fun i => if i = 0 then 123 else 0, fun _ => 0, fun _ => 0, 0x1000,
        false, false, false, false, false⟩).flagZ = false) ∧
    ((cmpiExecute ⟨⟨EAMode.IMM, 52⟩, ⟨EAMode.DRD, 0⟩, OpSize.WORD⟩
      ⟨fun i => if i = 0 then 123 else 0, fun _ => 0, fun _ => 0, 0x1000,
        false, false, false, false, false⟩).flagC = false) ∧
    ((cmpiExecute ⟨⟨EAMode.IMM, 52⟩, ⟨EAMode.DRD, 0⟩, OpSize.WORD⟩
      ⟨fun i => if i = 0 then 123 else 0, fun _ => 0, fun _ => 0, 0x1000,
        false, false, false, false, false⟩).flagV = false) ∧
    ((cmpiExecute ⟨⟨EAMode.IMM, 52⟩, ⟨EAMode.DRD, 0⟩, OpSize.WORD⟩
      ⟨fun i => if i = 0 then 123 else 0, fun _ => 0, fun _ => 0, 0x1000,
        false, false, false, false, false⟩).flagN = false) ∧
    ((cmpiExecute ⟨⟨EAMode.IMM, 52⟩, ⟨EAMode.DRD, 0⟩, OpSize.WORD⟩
      ⟨fun i => if i = 0 then 123 else 0, fun _ => 0, fun _ => 0, 0x1000,
        false, false, false, false, false⟩).pc = 0x1000 + 4) := by
  decide

/-- Claim C7: for every legal CMP instruction, legal CMPI instruction and
machine state, execute leaves every data register and every memory byte
unchanged; in particular the value stored at the destination location
(a data register for CMP, a data register or a memory location for CMPI)
is bit-identical before and after execute. -/
theorem C7_execute_preserves_destination (c : Cmp) (ci : Cmpi) (s : M68K)
    (_hc : cmpLegal c) (_hci : cmpiLegal ci) :
    ((cmpExecute c s).d = s.d ∧ (cmpExecute c s).mem = s.mem) ∧
    ((cmpiExecute ci s).d = s.d ∧ (cmpiExecute ci s).mem = s.mem) :=
  ⟨⟨cmpExecute_d c s, cmpExecute_mem c s⟩,
   ⟨cmpiExecute_d ci s, cmpiExecute_mem ci s⟩⟩

/-- Witness for C7 at CMP.B D0,D1, CMPI.W #5,D2 and a concrete state. -/
theorem C7_execute_preserves_destination_witness :
    cmpLegal ⟨⟨EAMode.DRD, 0⟩, ⟨EAMode.DRD, 1⟩, OpSize.BYTE⟩ ∧
    cmpiLegal ⟨⟨EAMode.IMM, 5⟩, ⟨EAMode.DRD, 2⟩, OpSize.WORD⟩ ∧
    (((cmpExecute ⟨⟨EAMode.DRD, 0⟩, ⟨EAMode.DRD, 1⟩, OpSize.BYTE⟩
        ⟨fun i => i, fun _ => 0, fun a => a, 0x1000,
          false, false, false, false, false⟩).d =
      M68K.d ⟨fun i => i, fun _ => 0, fun a => a, 0x1000,
          false, false, false, false, false⟩ ∧
      (cmpExecute ⟨⟨EAMode.DRD, 0⟩, ⟨EAMode.DRD, 1⟩, OpSize.BYTE⟩
        ⟨fun i => i, fun _ => 0, fun a => a, 0x1000,
          false, false, false, false, false⟩).mem =
      M68K.mem ⟨fun i => i, fun _ => 0, fun a => a, 0x1000,
          false, false, false, false, false⟩) ∧
     ((cmpiExecute ⟨⟨EAMode.IMM, 5⟩, ⟨EAMode.DRD, 2⟩, OpSize.WORD⟩
        ⟨fun i => i, fun _ => 0, fun a => a, 0x1000,
          false, false, false, false, false⟩).d =
      M68K.d ⟨fun i => i, fun _ => 0, fun a => a, 0x1000,
          false, false, false, false, false⟩ ∧
      (cmpiExecute ⟨⟨EAMode.IMM, 5⟩, ⟨EAMode.DRD, 2⟩, OpSize.WORD⟩
        ⟨fun i => i, fun _ => 0, fun a => a, 0x1000,
          false, false, false, false, false⟩).mem =
      M68K.mem ⟨fun i => i, fun _ => 0, fun a => a, 0x1000,
          false, false, false, false, false⟩)) :=
  ⟨by decide, by decide,
   C7_execute_preserves_destination _ _ _ (by decide) (by decide)⟩

/-- Claim C8: for every legal CMP instruction, legal CMPI instruction and
machine state, execute leaves the Extend condition flag unchanged. -/
theorem C8_execute_preserves_extend (c : Cmp) (ci : Cmpi) (s : M68K)
    (_hc : cmpLegal c) (_hci : cmpiLegal ci) :
    (cmpExecute c s).flagX = s.flagX ∧ (cmpiExecute ci s).flagX = s.flagX :=
  ⟨cmpExecute_x c s, cmpiExecute_x ci s⟩

/-- Witness for C8 at CMP.B D0,D1, CMPI.W #5,D2 and a concrete state with
the extend flag set. -/
theorem C8_execute_preserves_extend_witness :
    cmpLegal ⟨⟨EAMode.DRD, 0⟩, ⟨EAMode.DRD, 1⟩, OpSize.BYTE⟩ ∧
    cmpiLegal ⟨⟨EAMode.IMM, 5⟩, ⟨EAMode.DRD, 2⟩, OpSize.WORD⟩ ∧
    ((cmpExecute ⟨⟨EAMode.DRD, 0⟩, ⟨EAMode.DRD, 1⟩, OpSize.BYTE⟩
        ⟨fun _ => 0, fun _ => 0, fun _ => 0, 0x1000,
          false, false, false, false, true⟩).flagX =
      M68K.flagX ⟨fun _ => 0, fun _ => 0, fun _ => 0, 0x1000,
          false, false, false, false, true⟩ ∧
     (cmpiExecute ⟨⟨EAMode.IMM, 5⟩, ⟨EAMode.DRD, 2⟩, OpSize.WORD⟩
        ⟨fun _ => 0, fun _ => 0, fun _ => 0, 0x1000,
          false, false, false, false, true⟩).flagX =
      M68K.flagX ⟨fun _ => 0, fun _ => 0, fun _ => 0, 0x1000,
          false, false, false, false, true⟩) :=
  ⟨by decide, by decide,
   C8_execute_preserves_extend _ _ _ (by decide) (by decide)⟩

/-- Claim C9: construction fails exactly when the operand list does not
have two entries or a per-position mode rule is broken or the size is
outside the valid size set (in this embedding every OpSize member is in
the valid size set, as in the source, where valid_sizes lists all three),
and succeeds on legal arguments.  Stated as: any list without exactly two
entries constructs nothing, and on two operands construction succeeds
exactly when the per-position rules and the size rule hold. -/
theorem C9_construction_validation :
    (∀ (params : List AssemblyParameter) (size : OpSize), params.length ≠ 2 →
      cmpConstruct params size = none ∧ cmpiConstruct params size = none) ∧
    (∀ (p0 p1 : AssemblyParameter) (size : OpSize),
      ((cmpConstruct [p0, p1] size).isSome ↔
        (p1.mode = EAMode.DRD ∧ size ∈ cmpValidSizes)) ∧
      ((cmpiConstruct [p0, p1] size).isSome ↔
        (p0.mode = EAMode.IMM ∧ p1.mode ≠ EAMode.ARD ∧
          p1.mode ≠ EAMode.IMM ∧ size ∈ cmpiValidSizes))) := by
  constructor
  · intro params size h
    match params with
    | [] => exact ⟨rfl, rfl⟩
    | [_] => exact ⟨rfl, rfl⟩
    | [_, _] => exact absurd rfl h
    | _ :: _ :: _ :: _ => exact ⟨rfl, rfl⟩
  · intro p0 p1 size
    constructor
    · unfold cmpConstruct
      split <;> simp_all
    · unfold cmpiConstruct
      split <;> simp_all

/-- Witness for C9: the empty list constructs nothing, and a legal
two-operand list constructs a CMP. -/
theorem C9_construction_validation_witness :
    ([] : List AssemblyParameter).length ≠ 2 ∧
    cmpConstruct [] OpSize.WORD = none ∧
    (cmpConstruct [⟨EAMode.IMM, 5⟩, ⟨EAMode.DRD, 1⟩] OpSize.WORD).isSome :=
  ⟨by decide,
   (C9_construction_validation.1 [] OpSize.WORD (by decide)).1,
   (C9_construction_validation.2 ⟨EAMode.IMM, 5⟩ ⟨EAMode.DRD, 1⟩
     OpSize.WORD).1.mpr (by decide)⟩

/-- Claim C10: on any input of at least two bytes whose leading fixed bits
do not match the family tag, disassembly returns none: the top 4 bits of
the first word differing from 1011 give none for CMP, and the top 8 bits
differing from 00001100 give none for CMPI. -/
theorem C10_decode_tag_mismatch_none (b0 b1 : Nat) (rest : List Nat) :
    ((((b0 % 256) * 256 + b1 % 256) >>> 12 ≠ 0b1011 →
      cmpDisassemble (b0 :: b1 :: rest) = none) ∧
     (((b0 % 256) * 256 + b1 % 256) >>> 8 ≠ 0b00001100 →
      cmpiDisassemble (b0 :: b1 :: rest) = none)) := by
  constructor
  · intro h
    unfold cmpDisassemble
    simp only [h, ne_eq, not_false_eq_true, if_true]
  · intro h
    unfold cmpiDisassemble
    simp only [h, ne_eq, not_false_eq_true, if_true]

/-- Witness for C10 at the two-byte input 12 34 (hex), whose tag fields
match neither family. -/
theorem C10_decode_tag_mismatch_none_witness :
    ((0x12 % 256) * 256 + 0x34 % 256) >>> 12 ≠ 0b1011 ∧
    ((0x12 % 256) * 256 + 0x34 % 256) >>> 8 ≠ 0b00001100 ∧
    cmpDisassemble [0x12, 0x34] = none ∧
    cmpiDisassemble [0x12, 0x34] = none :=
  ⟨by decide, by decide,
   (C10_decode_tag_mismatch_none 0x12 0x34 []).1 (by decide),
   (C10_decode_tag_mismatch_none 0x12 0x34 []).2 (by decide)⟩

end Easier68k
